import Mathlib

/-!
Verification development for the las_dice repository.

The definitions below are a shallow embedding of the Python sources under
src/las_dice/.  Python strings are Lean String values, Python lists are Lean
List values, integers are Int, Optional values are Option, dictionaries are
association lists, and fallible code returns Except String.  External
collaborators (the PDAL subprocess, the geopandas overlay engine, the rich
console) are modelled as explicit function parameters or are dropped when they
are purely observational (logging, progress bars).
-/

namespace LasDice

/-! ## Python scalar values

Attribute tables map field names to scalar values.  We model the scalars that
occur in polygon attribute tables as strings and integers; pyStr is the
embedding of the Python str() conversion on those scalars. -/

inductive PyValue where
  | str (s : String)
  | int (n : Int)
deriving DecidableEq, Repr

def pyStr : PyValue → String
  | PyValue.str s => s
  | PyValue.int n => toString n

/-- Python dict.get(key, dflt) over an association list. -/
def dictGet (attrs : List (String × PyValue)) (key : String) (dflt : PyValue) : PyValue :=
  match attrs.lookup key with
  | some v => v
  | none => dflt

/-- Python truthiness of an Optional[str]: None and the empty string are falsy. -/
def truthy : Option String → Bool
  | none => false
  | some s => !(s == "")

/-! ## Name sanitization — src/las_dice/core/utils.py lines 25-27
and src/las_dice/core/naming.py lines 10-15.

The utils variant replaces each character that is neither alphanumeric nor in
"-_" by an underscore.  The naming variant applies the regular expression
[^A-Za-z0-9_-]+ , i.e. it replaces each maximal run of invalid characters by a
single underscore.  Both then strip leading and trailing underscores and fall
back to the default literal when the result is empty. -/

/-- Python str.isalnum restricted to the character data the repository
handles; alphanumeric characters are kept by the utils sanitizer. -/
def pyIsAlnum (c : Char) : Bool := c.isAlphanum

/-- Characters kept by the utils sanitizer: alphanumerics, hyphen, underscore. -/
def validCharU (c : Char) : Bool := pyIsAlnum c || c == '-' || c == '_'

/-- Per-character replacement of src/las_dice/core/utils.py line 26. -/
def replCharU (c : Char) : Char := if validCharU c then c else '_'

/-- Characters in the class [A-Za-z0-9_-] of the INVALID_CHARS regex in
src/las_dice/core/naming.py line 10. -/
def validCharN (c : Char) : Bool :=
  ('A' ≤ c && c ≤ 'Z') || ('a' ≤ c && c ≤ 'z') || ('0' ≤ c && c ≤ '9') || c == '_' || c == '-'

/-- INVALID_CHARS.sub("_", value): replace every maximal run of characters
outside [A-Za-z0-9_-] by a single underscore.  The boolean argument records
whether the previous character was part of an invalid run. -/
def collapseAux : Bool → List Char → List Char
  | _, [] => []
  | inRun, c :: rest =>
    if validCharN c then c :: collapseAux false rest
    else if inRun then collapseAux true rest
    else '_' :: collapseAux true rest

def collapseInvalid (l : List Char) : List Char := collapseAux false l

/-- Python str.strip("_") on a character list: remove leading then trailing
underscores. -/
def stripUnderscores (l : List Char) : List Char :=
  List.rdropWhile (fun c => c == '_') (l.dropWhile (fun c => c == '_'))

/-- sanitize of src/las_dice/core/utils.py lines 25-27. -/
def sanitizeUtilsL (l : List Char) (dflt : List Char) : List Char :=
  let cleaned := stripUnderscores (l.map replCharU)
  if cleaned.isEmpty then dflt else cleaned

def sanitizeUtils (value : String) (dflt : String := "unnamed") : String :=
  String.mk (sanitizeUtilsL value.data dflt.data)

/-- sanitize of src/las_dice/core/naming.py lines 13-15. -/
def sanitizeNamingL (l : List Char) (dflt : List Char) : List Char :=
  let cleaned := stripUnderscores (collapseInvalid l)
  if cleaned.isEmpty then dflt else cleaned

def sanitizeNaming (value : String) (dflt : String := "unnamed") : String :=
  String.mk (sanitizeNamingL value.data dflt.data)

/-! ## Name getters — src/las_dice/core/utils.py lines 19-38,
src/las_dice/core/naming.py lines 18-26, src/las_dice/cli.py lines 170-179. -/

structure NamingOptions where
  field : Option String
  suffix : Option String
deriving DecidableEq, Repr

/-- Appending the separately sanitized suffix, shared tail of both getters. -/
def applySuffixU (stem : String) (suffix : Option String) : String :=
  if truthy suffix then stem ++ "_" ++ sanitizeUtils (suffix.getD "") else stem

def applySuffixN (stem : String) (suffix : Option String) : String :=
  if truthy suffix then stem ++ "_" ++ sanitizeNaming (suffix.getD "") else stem

/-- build_name_getter of src/las_dice/core/utils.py lines 30-38 (the variant
the CLI imports), applied to an attribute dictionary. -/
def nameGetterU (options : NamingOptions) (attributes : List (String × PyValue)) : String :=
  let base : PyValue :=
    if truthy options.field then dictGet attributes (options.field.getD "") (PyValue.str "")
    else PyValue.str "polygon"
  let stem := sanitizeUtils (pyStr base)
  applySuffixU stem options.suffix

/-- build_name_getter of src/las_dice/core/naming.py lines 18-26. -/
def nameGetterN (field : Option String) (suffix : Option String)
    (attributes : List (String × PyValue)) : String :=
  let base : PyValue :=
    if truthy field then dictGet attributes (field.getD "") (PyValue.str "")
    else PyValue.str "polygon"
  let stem := sanitizeNaming (pyStr base)
  applySuffixN stem suffix

/-- build_output_path of src/las_dice/core/utils.py lines 41-42. -/
def buildOutputPath (name : String) (outdir : String) (extension : String := ".las") : String :=
  outdir ++ "/" ++ name ++ extension

/-! ## Geometry and GeoDataFrames

Geometry is handled entirely by external engines (shapely, geopandas); the
core only needs a decidable intersection test between a polygon and a tile
footprint.  We model a geometry as a finite set of integer grid cells and
intersection as a shared cell. -/

def Geo : Type := List (Int × Int)

instance : DecidableEq Geo := inferInstanceAs (DecidableEq (List (Int × Int)))

def geoIntersects (a b : Geo) : Bool := a.any (fun p => b.contains p)

/-- One row of the polygon GeoDataFrame: the index label, the geometry, and
the non-geometry attribute columns. -/
structure PolyRow where
  id : Int
  geo : Geo
  attrs : List (String × PyValue)
deriving DecidableEq

/-- The polygon GeoDataFrame: a CRS (already in canonical string form, as
compared via to_string in the source) and the rows. -/
structure PolygonsGdf where
  crs : Option String
  rows : List PolyRow
deriving DecidableEq

def polyIds (g : PolygonsGdf) : List Int := g.rows.map (fun r => r.id)

/-- One row of the tile index GeoDataFrame: tile footprint and the value of
its filepath column. -/
structure TileRow where
  geo : Geo
  filepath : String
deriving DecidableEq

/-- The tile index GeoDataFrame: CRS, column names, and rows. -/
structure TindexGdf where
  crs : Option String
  columns : List String
  rows : List TileRow
deriving DecidableEq

/-- PATH_FIELD of src/las_dice/core/tindex.py line 14. -/
def PATH_FIELD : String := "filepath"

/-! ## Spatial matcher — src/las_dice/core/paths.py -/

structure PolygonSources where
  polygon_id : Int
  source_paths : List String
deriving DecidableEq, Repr

/-- _ensure_crs_match of src/las_dice/core/paths.py lines 26-39, with
ensure_consistent_las_crs of src/las_dice/core/crs.py lines 32-46 inlined for
the singleton list [tindex.crs] that the matcher passes.  CRS descriptors are
modelled in canonical string form, so the parse step of _to_crs always
succeeds and comparison by to_string is string equality. -/
def ensureCrsMatch (polygons : PolygonsGdf) (tindex : TindexGdf) : Except String Unit :=
  match tindex.crs with
  | none => Except.error "Encountered LAS source without CRS"
  | some lasCrs =>
    match polygons.crs with
    | none => Except.error "Polygon CRS is undefined; cannot intersect"
    | some polyCrs =>
      if polyCrs ≠ lasCrs then
        Except.error "Polygon and tile index CRS differ; reproject polygons to match LAS CRS"
      else Except.ok ()

/-- The gpd.overlay call of src/las_dice/core/paths.py line 50 specialised to
the (polygon index, filepath) projection taken in lines 52-54: for each
intersecting polygon-tile combination one pair of the polygon index label and
the tile filepath value, in polygon-major order. -/
def overlayPairs (polygons : PolygonsGdf) (tindex : TindexGdf) : List (Int × String) :=
  polygons.rows.flatMap (fun p =>
    tindex.rows.filterMap (fun t =>
      if geoIntersects p.geo t.geo then some (p.id, t.filepath) else none))

/-- Keys of a Python dict in insertion order: first occurrence order of the
keys fed to it. -/
def firstKeys : List Int → List Int
  | [] => []
  | a :: l => a :: (firstKeys l).filter (fun x => x != a)

/-- All paths recorded for one key, in pair order. -/
def pathsFor (pairs : List (Int × String)) (k : Int) : List String :=
  pairs.filterMap (fun pr => if pr.1 = k then some pr.2 else none)

/-- The defaultdict grouping of src/las_dice/core/paths.py lines 51-58: group
the (polygon index, path) pairs by polygon index, keys in insertion order,
paths per key in discovery order. -/
def groupPairs (pairs : List (Int × String)) : List PolygonSources :=
  (firstKeys (pairs.map Prod.fst)).map (fun k => ⟨k, pathsFor pairs k⟩)

/-- match_polygons_to_sources of src/las_dice/core/paths.py lines 42-59, with
the external geometry engine (the gpd.overlay call) abstracted as the engine
parameter so that statements about when it is consulted can be made. -/
def matchPolygonsToSourcesWith
    (engine : PolygonsGdf → TindexGdf → List (Int × String))
    (polygons : PolygonsGdf) (tindex : TindexGdf) : Except String (List PolygonSources) :=
  if !(tindex.columns.contains PATH_FIELD) then
    Except.error ("Tile index missing required column \x27" ++ PATH_FIELD ++ "\x27")
  else
    match ensureCrsMatch polygons tindex with
    | Except.error e => Except.error e
    | Except.ok _ => Except.ok (groupPairs (engine polygons tindex))

def matchPolygonsToSources (polygons : PolygonsGdf) (tindex : TindexGdf) :
    Except String (List PolygonSources) :=
  matchPolygonsToSourcesWith overlayPairs polygons tindex

/-- The sort key relation used by the final sorted(...) of
src/las_dice/core/paths.py line 73. -/
abbrev pidLe (a b : PolygonSources) : Prop := a.polygon_id ≤ b.polygon_id

instance : DecidableRel pidLe := fun a b => Int.decLe a.polygon_id b.polygon_id

instance : IsTotal PolygonSources pidLe := ⟨fun a b => Int.le_total a.polygon_id b.polygon_id⟩

instance : IsTrans PolygonSources pidLe :=
  ⟨fun _ _ _ hab hbc => Int.le_trans hab hbc⟩

/-- match_polygons_with_empty_reports of src/las_dice/core/paths.py
lines 62-73: append a PolygonSources with empty source_paths for every
polygon id that received no match, then sort ascending by polygon_id.
Python sorted is a stable sort; insertionSort is stable, and no two distinct
elements of the combined list share a polygon_id, so the two agree. -/
def matchPolygonsWithEmptyReportsWith
    (engine : PolygonsGdf → TindexGdf → List (Int × String))
    (polygons : PolygonsGdf) (tindex : TindexGdf) : Except String (List PolygonSources) :=
  match matchPolygonsToSourcesWith engine polygons tindex with
  | Except.error e => Except.error e
  | Except.ok matched =>
    let matchedIds := matched.map (fun entry => entry.polygon_id)
    let allResults := matched ++
      (polyIds polygons).filterMap (fun idx =>
        if idx ∈ matchedIds then none else some (⟨idx, []⟩ : PolygonSources))
    Except.ok (List.insertionSort pidLe allResults)

def matchPolygonsWithEmptyReports (polygons : PolygonsGdf) (tindex : TindexGdf) :
    Except String (List PolygonSources) :=
  matchPolygonsWithEmptyReportsWith overlayPairs polygons tindex

/-! ## Clipper — src/las_dice/core/clipper.py

The PDAL subprocess is an external collaborator: it is modelled as a function
from the pipeline inputs the source assembles in _build_pipeline (input file
list, polygon WKT, output path) to success or the captured stderr text. -/

/-- Abstract stand-in for shapely.to_wkt serialization of a geometry. -/
def geoToWkt (g : Geo) : String := "POLYGON " ++ toString (g.map (fun p => (p.1, p.2)))

/-- Python Path.name: the final path component. -/
def pathName (p : String) : String := (p.splitOn "/").getLastD ""

/-- clip_polygons of src/las_dice/core/clipper.py lines 74-93, instrumented:
returns the produced output paths (or the ClippingError message), the
filesystem after the successful writes, and the number of PDAL pipeline
invocations (_run_pipeline calls).  The pdal parameter receives the pipeline
inputs assembled by _build_pipeline. -/
def clipPolygonsT (pdal : List String → String → String → Except String Unit)
    (polysGeo : List Geo) (records : List PolygonSources)
    (outputDir : String) (nameBuilder : Int → String) (fs : List String) :
    Except String (List String) × List String × Nat :=
  match records with
  | [] => (Except.ok [], fs, 0)
  | record :: rest =>
    if record.source_paths.isEmpty then
      clipPolygonsT pdal polysGeo rest outputDir nameBuilder fs
    else
      match polysGeo.get? record.polygon_id.toNat with
      | none => (Except.error "single positional indexer is out-of-bounds", fs, 0)
      | some geometry =>
        let wkt := geoToWkt geometry
        let outputPath := outputDir ++ "/" ++ nameBuilder record.polygon_id
        match pdal record.source_paths wkt outputPath with
        | Except.error stderr => (Except.error stderr, fs, 1)
        | Except.ok _ =>
          match clipPolygonsT pdal polysGeo rest outputDir nameBuilder (outputPath :: fs) with
          | (res, fs2, n) =>
            match res with
            | Except.error e => (Except.error e, fs2, n + 1)
            | Except.ok pathsRest => (Except.ok (outputPath :: pathsRest), fs2, n + 1)

/-! ## Clip executor — _execute_clips of src/las_dice/cli.py lines 197-256 -/

/-- The parameter names clip_polygons accepts
(src/las_dice/core/clipper.py lines 74-80). -/
def clip_polygons_params : List String :=
  ["polygons", "polygon_records", "output_dir", "name_builder", "forward_vlrs"]

/-- The keyword argument names _execute_clips passes to clip_polygons
(src/las_dice/cli.py lines 224-230). -/
def executor_call_kwargs : List String :=
  ["polygons", "polygon_records", "output_dir", "name_builder", "output_srs"]

/-- Python keyword-argument binding: the first keyword of the call that is
not a parameter of the callee, if any; such a keyword raises TypeError before
the callee body runs. -/
def findUnexpectedKwarg (callKwargs params : List String) : Option String :=
  callKwargs.find? (fun k => !(params.contains k))

/-- str(exc) of the TypeError raised by the clip call in _execute_clips. -/
def typeErrorMsg : String :=
  "clip_polygons() got an unexpected keyword argument \x27output_srs\x27"

/-- The parameter names of _execute_clips (src/las_dice/cli.py lines 197-202):
there is no overwrite parameter. -/
def execute_clips_params : List String :=
  ["planned", "poly_gdf", "outdir", "output_srs"]

/-- One result row of the executor (the dict literals of
src/las_dice/cli.py lines 213-220, 233-241, 247-254). -/
structure ResultRow where
  polygon_id : Int
  output : String
  sources : Nat
  status : String
  error : Option String
deriving DecidableEq, Repr

/-- The executor state after a run: the result rows, the filesystem, and the
number of PDAL invocations performed. -/
structure ExecOut where
  rows : List ResultRow
  fs : List String
  pdalCalls : Nat
deriving DecidableEq, Repr

/-- _execute_clips of src/las_dice/cli.py lines 197-256.  The filesystem is
the list of existing paths; output_path.exists() is membership.  The clip
call passes the keyword arguments of executor_call_kwargs; an unexpected one
raises TypeError, which the per-entry handler catches as an error row.  The
progress tracker is observational and dropped. -/
def executeClips (pdal : List String → String → String → Except String Unit)
    (polysGeo : List Geo) (planned : List (PolygonSources × String))
    (outdir : String) (outputSrs : Option String) (fs : List String) : ExecOut :=
  match planned with
  | [] => ⟨[], fs, 0⟩
  | (record, outputPath) :: rest =>
    if fs.contains outputPath then
      let out := executeClips pdal polysGeo rest outdir outputSrs fs
      ⟨⟨record.polygon_id, outputPath, record.source_paths.length, "exists", none⟩ :: out.rows,
        out.fs, out.pdalCalls⟩
    else
      match findUnexpectedKwarg executor_call_kwargs clip_polygons_params with
      | some _ =>
        let out := executeClips pdal polysGeo rest outdir outputSrs fs
        ⟨⟨record.polygon_id, outputPath, record.source_paths.length, "error",
            some typeErrorMsg⟩ :: out.rows,
          out.fs, out.pdalCalls⟩
      | none =>
        match clipPolygonsT pdal polysGeo [record] outdir (fun _ => pathName outputPath) fs with
        | (Except.error msg, fs2, n) =>
          let out := executeClips pdal polysGeo rest outdir outputSrs fs2
          ⟨⟨record.polygon_id, outputPath, record.source_paths.length, "error", some msg⟩
              :: out.rows,
            out.fs, out.pdalCalls + n⟩
        | (Except.ok _, fs2, n) =>
          let out := executeClips pdal polysGeo rest outdir outputSrs fs2
          ⟨⟨record.polygon_id, outputPath, record.source_paths.length, "written", none⟩
              :: out.rows,
            out.fs, out.pdalCalls + n⟩

/-- The row _execute_clips produces for one plan entry given the filesystem:
exists when the output path is present, otherwise the TypeError error row
(the clip call never survives keyword binding). -/
def entryRow (fs : List String) (e : PolygonSources × String) : ResultRow :=
  if fs.contains e.2 then ⟨e.1.polygon_id, e.2, e.1.source_paths.length, "exists", none⟩
  else ⟨e.1.polygon_id, e.2, e.1.source_paths.length, "error", some typeErrorMsg⟩

/-- A PDAL stub for concrete witnesses. -/
def pdalStub : List String → String → String → Except String Unit :=
  fun _ _ _ => Except.ok ()

/-! ## Output planning — src/las_dice/cli.py lines 170-194 -/

/-- attrs.setdefault("polygon_id", polygon_id) of src/las_dice/cli.py
line 176. -/
def setdefaultPolygonId (attrs : List (String × PyValue)) (pid : Int) :
    List (String × PyValue) :=
  if (attrs.map Prod.fst).contains "polygon_id" then attrs
  else attrs ++ [("polygon_id", PyValue.int pid)]

/-- The wrapper of _build_name_wrapper (src/las_dice/cli.py lines 170-179):
fetch the attribute row of the polygon by position (the polygon ids are the
positions of the default range index), default the polygon_id key, and apply
the utils name getter. -/
def nameWrapper (poly_gdf : PolygonsGdf) (name_field suffix : Option String)
    (pid : Int) : String :=
  let attrs :=
    match poly_gdf.rows.get? pid.toNat with
    | some r => r.attrs
    | none => []
  nameGetterU ⟨name_field, suffix⟩ (setdefaultPolygonId attrs pid)

/-- _plan_outputs of src/las_dice/cli.py lines 182-194: polygons with empty
source_paths go to the empties list, the rest get a plan entry with the
resolved output path, in matching order. -/
def planOutputs (poly_gdf : PolygonsGdf) (matched : List PolygonSources)
    (outdir : String) (name_field suffix : Option String) :
    List (PolygonSources × String) × List Int :=
  match matched with
  | [] => ([], [])
  | record :: rest =>
    let tailPlan := planOutputs poly_gdf rest outdir name_field suffix
    if record.source_paths.isEmpty then (tailPlan.1, record.polygon_id :: tailPlan.2)
    else
      ((record,
          buildOutputPath (nameWrapper poly_gdf name_field suffix record.polygon_id) outdir)
            :: tailPlan.1,
        tailPlan.2)

/-! ## RunConfig — src/las_dice/io/config.py lines 13-25 -/

structure RunConfig where
  polygons : String
  polygons_layer : Option String
  las_roots : List String
  tindex_path : String
  tindex_layer : String
  output_dir : String
  name_field : Option String
  suffix : Option String
  fast_boundary : Bool
  overwrite : Bool
  dry_run : Bool
deriving DecidableEq, Repr

/-- The field names of the RunConfig dataclass
(src/las_dice/io/config.py lines 14-25). -/
def run_config_fields : List String :=
  ["polygons", "polygons_layer", "las_roots", "tindex_path", "tindex_layer",
   "output_dir", "name_field", "suffix", "fast_boundary", "overwrite", "dry_run"]

/-- The keyword argument names of the RunConfig construction in _run_wizard
(src/las_dice/cli.py lines 141-152). -/
def wizard_config_kwargs : List String :=
  ["polygons", "polygons_layer", "las_roots", "tindex_path", "tindex_layer",
   "output_dir", "name_field", "suffix", "fast_boundary", "target_srs"]

/-- str(exc) of the TypeError raised by the dataclass constructor when the
wizard passes target_srs. -/
def runConfigTypeErrorMsg : String :=
  "RunConfig.__init__() got an unexpected keyword argument \x27target_srs\x27"

/-- Python dataclass keyword binding: an unexpected keyword raises TypeError
before any field is assigned. -/
def dataclassInitCheck (callKwargs fields : List String) : Except String Unit :=
  match findUnexpectedKwarg callKwargs fields with
  | some k => Except.error ("RunConfig.__init__() got an unexpected keyword argument \x27" ++ k ++ "\x27")
  | none => Except.ok ()

/-! ## The interactive wizard — _run_wizard of src/las_dice/cli.py
lines 52-154.

The wizard is driven by console prompts and filesystem probes; these external
inputs are collected into a WizardEnv record, so that a wizard run is a pure
function of its environment.  Console output (echo, log_info) is
observational and dropped; the save_config side effect sits after the
RunConfig construction and is therefore never reached. -/

structure PolyReadResult where
  crs : Option String
  fields : List String
deriving DecidableEq, Repr

structure WizardEnv where
  /-- the cleaned polygon dataset path entered at the prompt -/
  polygons_path : String
  /-- polygons_path.exists() and polygons_path.is_file() -/
  polygons_path_is_file : Bool
  /-- polygons_path.suffix.lower() == ".gpkg" -/
  is_gpkg : Bool
  /-- result of polygons.list_layers (its failure is caught and logged) -/
  list_layers_result : Except String (List String)
  /-- the 1-based layer number entered at the prompt -/
  layer_choice : Int
  /-- the manual layer name entered when no layers were listed -/
  layer_name_input : String
  /-- result of polygons.read_polygons: CRS and non-geometry field names -/
  read_result : Except String PolyReadResult
  /-- the 1-based naming-field number entered at the prompt -/
  field_choice : Int
  /-- the cleaned LAS root directory entered at the prompt -/
  las_root : String
  /-- las_root.exists() and las_root.is_dir() -/
  las_root_is_dir : Bool
  /-- the cleaned tile index output path entered at the prompt -/
  tindex_input : String
  /-- tindex_input exists and is a directory -/
  tindex_is_dir : Bool
  /-- the tile index layer name entered at the prompt -/
  tindex_layer_input : String
  /-- the cleaned output directory entered at the prompt -/
  output_input : String
  /-- the optional suffix entered at the prompt -/
  suffix_input : String
  /-- the fast-boundary confirmation -/
  fast_boundary_input : Bool
deriving Repr

/-- The tile index path fixups of src/las_dice/cli.py lines 114-121:
a directory gets the suggested file name appended, and an unrecognized
extension is replaced by .gpkg (modelled as appending .gpkg, which agrees
with Path.with_suffix for the extension-free inputs the wizard cleans). -/
def wizardTindexPath (env : WizardEnv) : String :=
  if env.tindex_is_dir then env.tindex_input ++ "/las_tindex.gpkg"
  else if env.tindex_input.endsWith ".gpkg" || env.tindex_input.endsWith ".shp" then
    env.tindex_input
  else env.tindex_input ++ ".gpkg"

/-- The layers list shown by the wizard: only GeoPackage sources are probed,
and a listing failure is caught, logged and treated as no layers
(src/las_dice/cli.py lines 60-66). -/
def wizardLayers (env : WizardEnv) : List String :=
  if env.is_gpkg then
    match env.list_layers_result with
    | Except.ok ls => ls
    | Except.error _ => []
  else []

/-- The layer selection step of the wizard (src/las_dice/cli.py
lines 67-79): with listed layers a 1-based number is prompted and validated,
otherwise a GeoPackage source gets a manual layer name prompt. -/
def wizardLayerStep (env : WizardEnv) : Except String (Option String) :=
  if !(wizardLayers env).isEmpty then
    if env.layer_choice < 1 ∨ ((wizardLayers env).length : Int) < env.layer_choice then
      Except.error "Layer selection out of range"
    else Except.ok ((wizardLayers env).get? (env.layer_choice - 1).toNat)
  else if env.is_gpkg then
    Except.ok (if env.layer_name_input == "" then none else some env.layer_name_input)
  else Except.ok none

/-- The naming-field selection step of the wizard (src/las_dice/cli.py
lines 101-109). -/
def wizardFieldStep (env : WizardEnv) (pr : PolyReadResult) : Except String (Option String) :=
  if !pr.fields.isEmpty then
    if env.field_choice < 1 ∨ (pr.fields.length : Int) < env.field_choice then
      Except.error "Naming field selection out of range"
    else Except.ok (pr.fields.get? (env.field_choice - 1).toNat)
  else Except.ok none

/-- _run_wizard of src/las_dice/cli.py lines 52-154.  Every click.prompt and
filesystem probe reads the environment; a ClickException is an error result.
The final step is the RunConfig construction with the keyword arguments of
wizard_config_kwargs, whose binding is checked against run_config_fields. -/
def runWizard (env : WizardEnv) : Except String RunConfig :=
  if !env.polygons_path_is_file then
    Except.error ("Polygon dataset not found: " ++ env.polygons_path)
  else
    match wizardLayerStep env with
    | Except.error e => Except.error e
    | Except.ok polygons_layer =>
      match env.read_result with
      | Except.error e => Except.error ("Failed to read polygons: " ++ e)
      | Except.ok pr =>
        match pr.crs with
        | none => Except.error "Polygon dataset has no defined CRS."
        | some _polygon_crs =>
          match wizardFieldStep env pr with
          | Except.error e => Except.error e
          | Except.ok name_field =>
            if !env.las_root_is_dir then
              Except.error ("LAS root directory not found: " ++ env.las_root)
            else
              match dataclassInitCheck wizard_config_kwargs run_config_fields with
              | Except.error e => Except.error e
              | Except.ok _ =>
                Except.ok
                  { polygons := env.polygons_path
                    polygons_layer := polygons_layer
                    las_roots := [env.las_root]
                    tindex_path := wizardTindexPath env
                    tindex_layer := env.tindex_layer_input
                    output_dir := env.output_input
                    name_field := name_field
                    suffix := if env.suffix_input == "" then none else some env.suffix_input
                    fast_boundary := env.fast_boundary_input
                    overwrite := false
                    dry_run := false }

/-- All prompts and the polygon read succeed: the wizard reaches the
configuration assembly. -/
def wizardPromptsOk (env : WizardEnv) : Bool :=
  env.polygons_path_is_file &&
  ((wizardLayers env).isEmpty ||
     (decide (1 ≤ env.layer_choice) &&
       decide (env.layer_choice ≤ ((wizardLayers env).length : Int)))) &&
  (match env.read_result with
   | Except.error _ => false
   | Except.ok pr =>
     pr.crs.isSome &&
       (pr.fields.isEmpty ||
         (decide (1 ≤ env.field_choice) &&
           decide (env.field_choice ≤ ((pr.fields.length : Int)))))) &&
  env.las_root_is_dir

/-- run_workflow of src/las_dice/cli.py lines 258-296 runs the wizard first
and only on its success proceeds to tindex.build_tindex, matching and
clipping.  Control reaches the tile-index build exactly when the wizard
returns a configuration. -/
def reachesTindexBuild (env : WizardEnv) : Bool :=
  match runWizard env with
  | Except.ok _ => true
  | Except.error _ => false

/-! ## The clip subcommand — clip_cmd of src/las_dice/cli.py lines 358-389 -/

/-- The names bound in the local scope of clip_cmd by its parameters and
assignments (src/las_dice/cli.py lines 366-386). -/
def clip_cmd_local_names : List String :=
  ["polygons_path", "layer", "name_field", "tindex_path", "tindex_layer", "outdir",
   "suffix", "poly_gdf", "tindex_gdf", "matched_sources", "name_wrapper", "planned",
   "empties", "pid"]

/-- The module-level names of src/las_dice/cli.py: imports and definitions. -/
def cli_module_names : List String :=
  ["annotations", "Path", "List", "Optional", "Sequence", "Tuple", "click",
   "clipper", "paths", "tindex", "NamingOptions", "build_name_getter",
   "build_output_path", "log_info", "progress_tracker", "status", "config_io",
   "polygons", "_clean_path", "cli", "list_fields", "_prompt_las_root",
   "_run_wizard", "_summarise_results", "_build_name_wrapper", "_plan_outputs",
   "_execute_clips", "run_workflow", "init_cmd", "build_tindex_cmd",
   "validate_tindex_cmd", "clip_cmd", "run_cmd", "main"]

/-- Python name resolution inside clip_cmd: a name is found in the local
scope or the module globals, otherwise a NameError is raised. -/
def lookupClipCmdName (n : String) : Except String Unit :=
  if clip_cmd_local_names.contains n || cli_module_names.contains n then Except.ok ()
  else Except.error ("name \x27" ++ n ++ "\x27 is not defined")

/-- str(exc) of the NameError raised at the _execute_clips call site of
clip_cmd (src/las_dice/cli.py line 388). -/
def nameErrorMsg : String := "name \x27poly_crs\x27 is not defined"

/-- The external read results consumed by clip_cmd. -/
structure ClipCmdEnv where
  read_polygons_result : Except String PolygonsGdf
  read_tindex_result : Except String TindexGdf

/-- clip_cmd of src/las_dice/cli.py lines 366-389.  The second component is
the trace of the stages reached after output planning: executing the clips
and printing the run summary.  Evaluating the arguments of the
_execute_clips call looks up the name poly_crs, which is bound neither in
the local scope nor at module level. -/
def clipCmd (env : ClipCmdEnv) (name_field suffix : Option String) (outdir : String) :
    Except String Unit × List String :=
  match env.read_polygons_result with
  | Except.error e => (Except.error e, [])
  | Except.ok poly_gdf =>
    match env.read_tindex_result with
    | Except.error e => (Except.error e, [])
    | Except.ok tindex_gdf =>
      match matchPolygonsWithEmptyReports poly_gdf tindex_gdf with
      | Except.error e => (Except.error e, [])
      | Except.ok matched =>
        let _plan := planOutputs poly_gdf matched outdir name_field suffix
        match lookupClipCmdName "poly_crs" with
        | Except.error e => (Except.error e, [])
        | Except.ok _ => (Except.ok (), ["execute_clips", "summarise"])

/-! ## Executor lemmas -/

/-- The clip call of _execute_clips always fails keyword binding: output_srs
is not a parameter of clip_polygons. -/
theorem findUnexpectedKwarg_executor :
    findUnexpectedKwarg executor_call_kwargs clip_polygons_params = some "output_srs" := by
  decide

/-- Master description of _execute_clips: every entry produces its row by
entryRow, the filesystem is unchanged, and PDAL is never invoked, because the
clip call raises TypeError before reaching the external tool. -/
theorem executeClips_eq (pdal : List String → String → String → Except String Unit)
    (polysGeo : List Geo) (planned : List (PolygonSources × String))
    (outdir : String) (outputSrs : Option String) (fs : List String) :
    executeClips pdal polysGeo planned outdir outputSrs fs =
      ⟨planned.map (entryRow fs), fs, 0⟩ := by
  induction planned with
  | nil => rfl
  | cons e rest ih =>
    obtain ⟨record, outputPath⟩ := e
    by_cases h : outputPath ∈ fs
    · simp only [executeClips, ih]
      simp [entryRow, h]
    · simp only [executeClips, ih, findUnexpectedKwarg_executor]
      simp [entryRow, h]

/-- Claim C1: the clip call of _execute_clips passes the keyword argument
output_srs, which clip_polygons does not accept, so every plan entry whose
output path does not already exist gets an error row from the resulting
TypeError; the written branch is unreachable and the external clip tool is
never invoked. -/
theorem c1_missing_output_rows_error
    (pdal : List String → String → String → Except String Unit)
    (polysGeo : List Geo) (planned : List (PolygonSources × String))
    (outdir : String) (outputSrs : Option String) (fs : List String) :
    clip_polygons_params.contains "output_srs" = false ∧
    executor_call_kwargs.contains "output_srs" = true ∧
    (∀ k entry, planned.get? k = some entry → entry.2 ∉ fs →
      (executeClips pdal polysGeo planned outdir outputSrs fs).rows.get? k =
        some ⟨entry.1.polygon_id, entry.2, entry.1.source_paths.length, "error",
          some typeErrorMsg⟩) ∧
    (∀ row ∈ (executeClips pdal polysGeo planned outdir outputSrs fs).rows,
      row.status ≠ "written") ∧
    (executeClips pdal polysGeo planned outdir outputSrs fs).pdalCalls = 0 := by
  refine ⟨by decide, by decide, ?_, ?_, by simp [executeClips_eq]⟩
  · intro k entry hget hmem
    rw [executeClips_eq]
    simp only [List.get?_map, hget, Option.map_some]
    simp [entryRow, hmem]
  · intro row hrow
    rw [executeClips_eq] at hrow
    simp only [List.mem_map] at hrow
    obtain ⟨e, _, rfl⟩ := hrow
    by_cases h : e.2 ∈ fs <;> simp [entryRow, h]

/-- Witness for C1 at a concrete input: a one-entry plan whose output does
not exist yields the TypeError error row. -/
theorem c1_missing_output_rows_error_witness :
    ((["existing.las"] : List String).contains "out/p0.las" = false) ∧
    (executeClips pdalStub [] [(⟨0, ["a.las"]⟩, "out/p0.las")] "out" none
        ["existing.las"]).rows.get? 0 =
      some ⟨0, "out/p0.las", 1, "error", some typeErrorMsg⟩ :=
  ⟨by decide,
    (c1_missing_output_rows_error pdalStub [] [(⟨0, ["a.las"]⟩, "out/p0.las")] "out" none
        ["existing.las"]).2.2.1 0 (⟨0, ["a.las"]⟩, "out/p0.las") rfl (by decide)⟩

/-- Claim C4: a plan entry whose output path already exists gets the exists
row and no external invocation; rerunning over the unchanged filesystem keeps
every previously written entry at exists and performs zero new external
invocations. -/
theorem c4_exists_skip_idempotent
    (pdal : List String → String → String → Except String Unit)
    (polysGeo : List Geo) (planned : List (PolygonSources × String))
    (outdir : String) (outputSrs : Option String) (fs : List String) :
    (∀ k entry, planned.get? k = some entry → entry.2 ∈ fs →
      (executeClips pdal polysGeo planned outdir outputSrs fs).rows.get? k =
        some ⟨entry.1.polygon_id, entry.2, entry.1.source_paths.length, "exists", none⟩) ∧
    (executeClips pdal polysGeo planned outdir outputSrs fs).pdalCalls = 0 ∧
    (executeClips pdal polysGeo planned outdir outputSrs fs).fs = fs ∧
    (∀ k row,
      (executeClips pdal polysGeo planned outdir outputSrs fs).rows.get? k = some row →
      row.status = "written" →
      (executeClips pdal polysGeo planned outdir outputSrs
          (executeClips pdal polysGeo planned outdir outputSrs fs).fs).rows.get? k =
        some ⟨row.polygon_id, row.output, row.sources, "exists", none⟩) ∧
    (executeClips pdal polysGeo planned outdir outputSrs
        (executeClips pdal polysGeo planned outdir outputSrs fs).fs).pdalCalls = 0 := by
  refine ⟨?_, by simp [executeClips_eq], by simp [executeClips_eq], ?_, by simp [executeClips_eq]⟩
  · intro k entry hget hmem
    rw [executeClips_eq]
    simp only [List.get?_map, hget, Option.map_some]
    simp [entryRow, hmem]
  · intro k row hget hstatus
    exfalso
    rw [executeClips_eq] at hget
    simp only [List.get?_map] at hget
    rcases hp : planned.get? k with _ | e
    · rw [hp] at hget
      exact Option.noConfusion hget
    · rw [hp] at hget
      have hrow := Option.some.inj hget
      rw [← hrow] at hstatus
      by_cases h : e.2 ∈ fs <;> simp [entryRow, h] at hstatus

/-- Witness for C4 at a concrete input: the single planned output already
exists, the run reports exists with zero PDAL invocations, and so does the
rerun. -/
theorem c4_exists_skip_idempotent_witness :
    ("out/p0.las" ∈ (["out/p0.las"] : List String)) ∧
    (executeClips pdalStub [] [(⟨0, ["a.las"]⟩, "out/p0.las")] "out" none
        ["out/p0.las"]).rows.get? 0 =
      some ⟨0, "out/p0.las", 1, "exists", none⟩ ∧
    (executeClips pdalStub [] [(⟨0, ["a.las"]⟩, "out/p0.las")] "out" none
        ["out/p0.las"]).pdalCalls = 0 :=
  ⟨by decide,
    (c4_exists_skip_idempotent pdalStub [] [(⟨0, ["a.las"]⟩, "out/p0.las")] "out" none
        ["out/p0.las"]).1 0 (⟨0, ["a.las"]⟩, "out/p0.las") rfl (by decide),
    (c4_exists_skip_idempotent pdalStub [] [(⟨0, ["a.las"]⟩, "out/p0.las")] "out" none
        ["out/p0.las"]).2.1⟩

/-- Claim C5 counterexample: two planned entries, neither output existing.
The invocation for entry 0 fails (TypeError), and entry 1 receives the error
status as well — neither written nor exists, contradicting the claim that
entries after a failing one still receive written or exists. -/
theorem c5_counterexample :
    (executeClips pdalStub []
        [(⟨0, ["a.las"]⟩, "out/p0.las"), (⟨1, ["b.las"]⟩, "out/p1.las")]
        "out" none []).rows =
      [⟨0, "out/p0.las", 1, "error", some typeErrorMsg⟩,
        ⟨1, "out/p1.las", 1, "error", some typeErrorMsg⟩] ∧
    ("error" : String) ≠ "written" ∧ ("error" : String) ≠ "exists" := by
  refine ⟨?_, by decide, by decide⟩
  rw [executeClips_eq]
  rfl

/-- Claim C5 as amended: the executor returns one row per plan entry in plan
order, each computed from its own entry alone; a failing entry yields status
error with the exception text captured verbatim and later entries are still
processed — but since every invocation fails with the TypeError, an entry
receives exists when its output already exists and error otherwise, never
written. -/
theorem c5_rows_isolated
    (pdal : List String → String → String → Except String Unit)
    (polysGeo : List Geo) (planned : List (PolygonSources × String))
    (outdir : String) (outputSrs : Option String) (fs : List String) :
    (executeClips pdal polysGeo planned outdir outputSrs fs).rows.length = planned.length ∧
    (∀ k entry, planned.get? k = some entry →
      (executeClips pdal polysGeo planned outdir outputSrs fs).rows.get? k =
        some (entryRow fs entry)) ∧
    (∀ entry : PolygonSources × String, entry.2 ∈ fs →
      entryRow fs entry =
        ⟨entry.1.polygon_id, entry.2, entry.1.source_paths.length, "exists", none⟩) ∧
    (∀ entry : PolygonSources × String, entry.2 ∉ fs →
      entryRow fs entry =
        ⟨entry.1.polygon_id, entry.2, entry.1.source_paths.length, "error",
          some typeErrorMsg⟩) := by
  refine ⟨by simp [executeClips_eq], ?_, ?_, ?_⟩
  · intro k entry hget
    rw [executeClips_eq]
    simp only [List.get?_map, hget]
    rfl
  · intro entry hmem
    simp [entryRow, hmem]
  · intro entry hmem
    simp [entryRow, hmem]

/-- Witness for the amended C5 at a concrete input: two entries, the first
output existing, the second not. -/
theorem c5_rows_isolated_witness :
    (executeClips pdalStub []
        [(⟨0, ["a.las"]⟩, "out/p0.las"), (⟨1, ["b.las"]⟩, "out/p1.las")]
        "out" none ["out/p0.las"]).rows.length = 2 ∧
    (executeClips pdalStub []
        [(⟨0, ["a.las"]⟩, "out/p0.las"), (⟨1, ["b.las"]⟩, "out/p1.las")]
        "out" none ["out/p0.las"]).rows.get? 1 =
      some (entryRow ["out/p0.las"] (⟨1, ["b.las"]⟩, "out/p1.las")) ∧
    entryRow ["out/p0.las"] ((⟨1, ["b.las"]⟩ : PolygonSources), "out/p1.las") =
      ⟨1, "out/p1.las", 1, "error", some typeErrorMsg⟩ :=
  ⟨(c5_rows_isolated pdalStub []
      [(⟨0, ["a.las"]⟩, "out/p0.las"), (⟨1, ["b.las"]⟩, "out/p1.las")]
      "out" none ["out/p0.las"]).1,
    (c5_rows_isolated pdalStub []
      [(⟨0, ["a.las"]⟩, "out/p0.las"), (⟨1, ["b.las"]⟩, "out/p1.las")]
      "out" none ["out/p0.las"]).2.1 1 (⟨1, ["b.las"]⟩, "out/p1.las") rfl,
    (c5_rows_isolated pdalStub []
      [(⟨0, ["a.las"]⟩, "out/p0.las"), (⟨1, ["b.las"]⟩, "out/p1.las")]
      "out" none ["out/p0.las"]).2.2.2 (⟨1, ["b.las"]⟩, "out/p1.las") (by decide)⟩

/-- Claim C6: the RunConfig dataclass declares an overwrite field, but
_execute_clips has no overwrite parameter and performs the existence check
unconditionally — an entry whose output exists is always recorded as exists
and the filesystem is never written, whatever the arguments of the executor
are. -/
theorem c6_no_overwrite_parameter
    (pdal : List String → String → String → Except String Unit)
    (polysGeo : List Geo) (planned : List (PolygonSources × String))
    (outdir : String) (outputSrs : Option String) (fs : List String) :
    execute_clips_params.contains "overwrite" = false ∧
    run_config_fields.contains "overwrite" = true ∧
    (∀ k entry, planned.get? k = some entry → entry.2 ∈ fs →
      (executeClips pdal polysGeo planned outdir outputSrs fs).rows.get? k =
        some ⟨entry.1.polygon_id, entry.2, entry.1.source_paths.length, "exists", none⟩) ∧
    (executeClips pdal polysGeo planned outdir outputSrs fs).fs = fs := by
  refine ⟨by decide, by decide, ?_, by simp [executeClips_eq]⟩
  intro k entry hget hmem
  rw [executeClips_eq]
  simp only [List.get?_map, hget, Option.map_some]
  simp [entryRow, hmem]

/-- Witness for C6 at a concrete input: an entry whose output exists is
recorded as exists (the check is never skipped). -/
theorem c6_no_overwrite_parameter_witness :
    ("out/p0.las" ∈ (["out/p0.las"] : List String)) ∧
    (executeClips pdalStub [] [(⟨0, ["a.las"]⟩, "out/p0.las")] "out" none
        ["out/p0.las"]).rows.get? 0 =
      some ⟨0, "out/p0.las", 1, "exists", none⟩ :=
  ⟨by decide,
    (c6_no_overwrite_parameter pdalStub [] [(⟨0, ["a.las"]⟩, "out/p0.las")] "out" none
        ["out/p0.las"]).2.2.1 0 (⟨0, ["a.las"]⟩, "out/p0.las") rfl (by decide)⟩

/-! ## Matcher lemmas -/

theorem mem_firstKeys (l : List Int) (x : Int) : x ∈ firstKeys l ↔ x ∈ l := by
  induction l with
  | nil => simp [firstKeys]
  | cons a t ih =>
    simp only [firstKeys, List.mem_cons, List.mem_filter, bne_iff_ne]
    constructor
    · rintro (rfl | ⟨hx, _⟩)
      · exact Or.inl rfl
      · exact Or.inr (ih.1 hx)
    · rintro (rfl | hx)
      · exact Or.inl rfl
      · by_cases hxa : x = a
        · exact Or.inl hxa
        · exact Or.inr ⟨ih.2 hx, hxa⟩

theorem firstKeys_nodup (l : List Int) : (firstKeys l).Nodup := by
  induction l with
  | nil => simp [firstKeys]
  | cons a t ih =>
    rw [firstKeys, List.nodup_cons]
    constructor
    · intro hmem
      have := (List.mem_filter.mp hmem).2
      simp at this
    · exact List.Nodup.filter _ ih

/-- The polygon ids of groupPairs are the keys in first-occurrence order. -/
theorem groupPairs_map_pid (pairs : List (Int × String)) :
    (groupPairs pairs).map (fun e => e.polygon_id) = firstKeys (pairs.map Prod.fst) := by
  unfold groupPairs
  rw [List.map_map]
  exact List.map_id'' (fun x => rfl) _

/-- The polygon ids of the synthesized empty reports are the input ids not
already matched. -/
theorem empties_map_pid (ids matchedIds : List Int) :
    ((ids.filterMap (fun idx =>
        if idx ∈ matchedIds then none else some (⟨idx, []⟩ : PolygonSources))).map
      (fun e => e.polygon_id)) =
      ids.filter (fun idx => !(decide (idx ∈ matchedIds))) := by
  induction ids with
  | nil => rfl
  | cons a t ih =>
    by_cases h : a ∈ matchedIds <;>
      simp [List.filterMap_cons, h, ih, List.filter_cons]

/-- The concrete overlay engine only reports polygon ids of the input
dataset, so the engine hypothesis of the completeness theorem holds for it. -/
theorem overlayPairs_fst_mem (polygons : PolygonsGdf) (tindex : TindexGdf) :
    ∀ pr ∈ overlayPairs polygons tindex, pr.1 ∈ polyIds polygons := by
  intro pr hpr
  unfold overlayPairs at hpr
  rw [List.mem_flatMap] at hpr
  obtain ⟨p, hp, hmem⟩ := hpr
  obtain ⟨t, _, ht⟩ := List.mem_filterMap.mp hmem
  unfold polyIds
  rcases hint : geoIntersects p.geo t.geo with _ | _
  · rw [hint] at ht
    exact absurd ht (by simp)
  · rw [hint] at ht
    have := Option.some.inj ht
    rw [← this]
    exact List.mem_map.mpr ⟨p, hp, rfl⟩

/-- Success of match_polygons_to_sources yields exactly the grouping of the
engine pairs. -/
theorem matchPolygonsToSourcesWith_ok
    (engine : PolygonsGdf → TindexGdf → List (Int × String))
    (polygons : PolygonsGdf) (tindex : TindexGdf) (m : List PolygonSources)
    (h : matchPolygonsToSourcesWith engine polygons tindex = Except.ok m) :
    m = groupPairs (engine polygons tindex) := by
  unfold matchPolygonsToSourcesWith at h
  split at h
  · exact absurd h (by simp)
  · split at h
    · exact absurd h (by simp)
    · exact (Except.ok.inj h).symm

/-- Success of match_polygons_with_empty_reports yields the sorted union of
the grouped matches and the synthesized empty reports. -/
theorem matchPolygonsWithEmptyReportsWith_ok
    (engine : PolygonsGdf → TindexGdf → List (Int × String))
    (polygons : PolygonsGdf) (tindex : TindexGdf) (res : List PolygonSources)
    (h : matchPolygonsWithEmptyReportsWith engine polygons tindex = Except.ok res) :
    res = List.insertionSort pidLe
      (groupPairs (engine polygons tindex) ++
        (polyIds polygons).filterMap (fun idx =>
          if idx ∈ (groupPairs (engine polygons tindex)).map (fun e => e.polygon_id)
          then none else some (⟨idx, []⟩ : PolygonSources))) := by
  unfold matchPolygonsWithEmptyReportsWith at h
  split at h
  · exact absurd h (by simp)
  · rename_i matched hma
    have hg := matchPolygonsToSourcesWith_ok engine polygons tindex matched hma
    subst hg
    exact (Except.ok.inj h).symm

/-- Claim C2: on every accepted input, match_polygons_with_empty_reports
returns exactly one PolygonSources per polygon id of the input dataset (a
permutation of the input ids), polygons without any engine match carry an
empty source_paths list, and the output is sorted ascending by polygon_id
regardless of the order in which the engine discovered the matches. -/
theorem c2_match_complete_sorted
    (engine : PolygonsGdf → TindexGdf → List (Int × String))
    (polygons : PolygonsGdf) (tindex : TindexGdf) (res : List PolygonSources)
    (hids : (polyIds polygons).Nodup)
    (hengine : ∀ pr ∈ engine polygons tindex, pr.1 ∈ polyIds polygons)
    (hok : matchPolygonsWithEmptyReportsWith engine polygons tindex = Except.ok res) :
    List.Sorted (· ≤ ·) (res.map (fun e => e.polygon_id)) ∧
    (res.map (fun e => e.polygon_id)).Perm (polyIds polygons) ∧
    (∀ e ∈ res, e.polygon_id ∉ (engine polygons tindex).map Prod.fst →
      e.source_paths = []) := by
  have hres := matchPolygonsWithEmptyReportsWith_ok engine polygons tindex res hok
  set pairs := engine polygons tindex with hpairs
  set keys := firstKeys (pairs.map Prod.fst) with hkeys
  set matched := groupPairs pairs with hmatched
  set empties := (polyIds polygons).filterMap (fun idx =>
    if idx ∈ matched.map (fun e => e.polygon_id) then none
    else some (⟨idx, []⟩ : PolygonSources)) with hempties
  have hkeys_sub : ∀ k ∈ keys, k ∈ polyIds polygons := by
    intro k hk
    have hk2 : k ∈ pairs.map Prod.fst := (mem_firstKeys _ _).1 hk
    obtain ⟨pr, hpr, rfl⟩ := List.mem_map.mp hk2
    exact hengine pr hpr
  refine ⟨?_, ?_, ?_⟩
  · -- sortedness of the polygon ids
    have hsorted : List.Sorted pidLe res := by
      rw [hres]; exact List.sorted_insertionSort pidLe _
    have hp : List.Pairwise pidLe res := hsorted
    show List.Pairwise (fun a b : Int => a ≤ b) (res.map (fun e => e.polygon_id))
    exact List.pairwise_map.2 hp
  · -- the ids are a permutation of the input ids
    have hperm1 : res.Perm (matched ++ empties) := by
      rw [hres]; exact List.perm_insertionSort pidLe _
    have hmap : (matched ++ empties).map (fun e => e.polygon_id) =
        keys ++ (polyIds polygons).filter (fun idx => !(decide (idx ∈ keys))) := by
      rw [List.map_append, groupPairs_map_pid]
      rw [hempties, hmatched, groupPairs_map_pid, empties_map_pid]
    have hperm2 : (res.map (fun e => e.polygon_id)).Perm
        (keys ++ (polyIds polygons).filter (fun idx => !(decide (idx ∈ keys)))) := by
      rw [← hmap]
      exact hperm1.map (fun e => e.polygon_id)
    have hkeysperm : keys.Perm ((polyIds polygons).filter (fun idx => decide (idx ∈ keys))) := by
      rw [List.perm_ext_iff_of_nodup (firstKeys_nodup _) (List.Nodup.filter _ hids)]
      intro a
      simp only [List.mem_filter, decide_eq_true_eq]
      exact ⟨fun h => ⟨hkeys_sub a h, h⟩, fun h => h.2⟩
    have hsplit : ((polyIds polygons).filter (fun idx => decide (idx ∈ keys)) ++
        (polyIds polygons).filter (fun idx => !(decide (idx ∈ keys)))).Perm
          (polyIds polygons) :=
      List.filter_append_perm _ _
    exact hperm2.trans ((hkeysperm.append_right _).trans hsplit)
  · -- polygons with no engine match carry an empty source list
    intro e he hnot
    have he2 : e ∈ matched ++ empties := by
      have hperm1 : res.Perm (matched ++ empties) := by
        rw [hres]; exact List.perm_insertionSort pidLe _
      exact hperm1.mem_iff.mp he
    rcases List.mem_append.mp he2 with hm | hm
    · exfalso
      apply hnot
      rw [hmatched] at hm
      unfold groupPairs at hm
      obtain ⟨k, hk, rfl⟩ := List.mem_map.mp hm
      exact (mem_firstKeys _ _).1 hk
    · obtain ⟨idx, _, hfm⟩ := List.mem_filterMap.mp hm
      by_cases hcase : idx ∈ matched.map (fun x => x.polygon_id)
      · rw [if_pos hcase] at hfm
        exact Option.noConfusion hfm
      · rw [if_neg hcase] at hfm
        have := Option.some.inj hfm
        rw [← this]

/-- Witness for C2 at the example scenario of the specification: three
polygons, tiles T1 and T2, engine pairs discovered out of order. -/
theorem c2_match_complete_sorted_witness :
    (matchPolygonsWithEmptyReportsWith
        (fun _ _ => [(2, "T1"), (0, "T1"), (0, "T2")])
        ⟨some "EPSG:32633", [⟨0, [], []⟩, ⟨1, [], []⟩, ⟨2, [], []⟩]⟩
        ⟨some "EPSG:32633", ["geometry", "filepath"], []⟩ =
      Except.ok [⟨0, ["T1", "T2"]⟩, ⟨1, []⟩, ⟨2, ["T1"]⟩]) ∧
    List.Sorted (· ≤ ·)
      (([⟨0, ["T1", "T2"]⟩, ⟨1, []⟩, ⟨2, ["T1"]⟩] : List PolygonSources).map
        (fun e => e.polygon_id)) ∧
    (([⟨0, ["T1", "T2"]⟩, ⟨1, []⟩, ⟨2, ["T1"]⟩] : List PolygonSources).map
        (fun e => e.polygon_id)).Perm
      (polyIds ⟨some "EPSG:32633", [⟨0, [], []⟩, ⟨1, [], []⟩, ⟨2, [], []⟩]⟩) := by
  have h := c2_match_complete_sorted
    (fun _ _ => [(2, "T1"), (0, "T1"), (0, "T2")])
    ⟨some "EPSG:32633", [⟨0, [], []⟩, ⟨1, [], []⟩, ⟨2, [], []⟩]⟩
    ⟨some "EPSG:32633", ["geometry", "filepath"], []⟩
    [⟨0, ["T1", "T2"]⟩, ⟨1, []⟩, ⟨2, ["T1"]⟩]
    (by decide) (by decide) (by rfl)
  exact ⟨by rfl, h.1, h.2.1⟩

/-- Claim C3: whenever the canonical CRS strings of the polygon dataset and
the tile index differ — including either being undefined — matching fails
with one of the CRS error messages surfaced as SourceSelectionError, and the
result does not depend on the geometry engine: the intersection computation
is never consulted. -/
theorem c3_crs_mismatch_rejected
    (engine : PolygonsGdf → TindexGdf → List (Int × String))
    (polygons : PolygonsGdf) (tindex : TindexGdf)
    (hcol : tindex.columns.contains PATH_FIELD = true)
    (hcrs : polygons.crs ≠ tindex.crs) :
    ∃ msg,
      msg ∈ ["Encountered LAS source without CRS",
        "Polygon CRS is undefined; cannot intersect",
        "Polygon and tile index CRS differ; reproject polygons to match LAS CRS"] ∧
      (∀ engine2 : PolygonsGdf → TindexGdf → List (Int × String),
        matchPolygonsToSourcesWith engine2 polygons tindex = Except.error msg) ∧
      matchPolygonsToSourcesWith engine polygons tindex = Except.error msg := by
  have hmatch : ∀ engine2 : PolygonsGdf → TindexGdf → List (Int × String),
      matchPolygonsToSourcesWith engine2 polygons tindex =
        (match ensureCrsMatch polygons tindex with
          | Except.error e => Except.error e
          | Except.ok _ => Except.ok (groupPairs (engine2 polygons tindex))) := by
    intro engine2
    unfold matchPolygonsToSourcesWith
    rw [hcol]
    rfl
  rcases htc : tindex.crs with _ | lasCrs
  · refine ⟨"Encountered LAS source without CRS", by simp, ?_, ?_⟩ <;>
      first
      | (intro engine2; rw [hmatch engine2]; unfold ensureCrsMatch; rw [htc])
      | (rw [hmatch engine]; unfold ensureCrsMatch; rw [htc])
  · rcases hpc : polygons.crs with _ | polyCrs
    · refine ⟨"Polygon CRS is undefined; cannot intersect", by simp, ?_, ?_⟩ <;>
        first
        | (intro engine2; rw [hmatch engine2]; unfold ensureCrsMatch; rw [htc, hpc])
        | (rw [hmatch engine]; unfold ensureCrsMatch; rw [htc, hpc])
    · have hne : polyCrs ≠ lasCrs := by
        intro hEq
        apply hcrs
        rw [htc, hpc, hEq]
      refine ⟨"Polygon and tile index CRS differ; reproject polygons to match LAS CRS",
        by simp, ?_, ?_⟩ <;>
        first
        | (intro engine2; rw [hmatch engine2]; unfold ensureCrsMatch; rw [htc, hpc];
            simp [hne])
        | (rw [hmatch engine]; unfold ensureCrsMatch; rw [htc, hpc]; simp [hne])

/-- Witness for C3 at a concrete input: matching a polygon set in EPSG:4326
against a tile index in EPSG:32633 fails with the CRS difference message. -/
theorem c3_crs_mismatch_rejected_witness :
    ((⟨some "EPSG:32633", ["filepath"], [⟨[(0, 0)], "t.las"⟩]⟩ : TindexGdf).columns.contains
        PATH_FIELD = true) ∧
    ((⟨some "EPSG:4326", [⟨0, [(0, 0)], []⟩]⟩ : PolygonsGdf).crs ≠
      (⟨some "EPSG:32633", ["filepath"], [⟨[(0, 0)], "t.las"⟩]⟩ : TindexGdf).crs) ∧
    ∃ msg,
      msg ∈ ["Encountered LAS source without CRS",
        "Polygon CRS is undefined; cannot intersect",
        "Polygon and tile index CRS differ; reproject polygons to match LAS CRS"] ∧
      (∀ engine2 : PolygonsGdf → TindexGdf → List (Int × String),
        matchPolygonsToSourcesWith engine2
          ⟨some "EPSG:4326", [⟨0, [(0, 0)], []⟩]⟩
          ⟨some "EPSG:32633", ["filepath"], [⟨[(0, 0)], "t.las"⟩]⟩ = Except.error msg) ∧
      matchPolygonsToSourcesWith overlayPairs
        ⟨some "EPSG:4326", [⟨0, [(0, 0)], []⟩]⟩
        ⟨some "EPSG:32633", ["filepath"], [⟨[(0, 0)], "t.las"⟩]⟩ = Except.error msg :=
  ⟨by decide, by decide,
    c3_crs_mismatch_rejected overlayPairs
      ⟨some "EPSG:4326", [⟨0, [(0, 0)], []⟩]⟩
      ⟨some "EPSG:32633", ["filepath"], [⟨[(0, 0)], "t.las"⟩]⟩
      (by decide) (by decide)⟩

/-! ## Wizard lemmas -/

/-- The dataclass binding of the RunConfig call in the wizard always fails:
target_srs is not a RunConfig field. -/
theorem dataclassInitCheck_wizard :
    dataclassInitCheck wizard_config_kwargs run_config_fields =
      Except.error runConfigTypeErrorMsg := rfl

/-- The wizard can never deliver a configuration: every control path either
fails an earlier prompt or hits the TypeError of the RunConfig construction. -/
theorem runWizard_never_ok (env : WizardEnv) (cfg : RunConfig) :
    runWizard env ≠ Except.ok cfg := by
  intro h
  unfold runWizard at h
  split at h
  · exact Except.noConfusion h
  · split at h
    · exact Except.noConfusion h
    · split at h
      · exact Except.noConfusion h
      · split at h
        · exact Except.noConfusion h
        · split at h
          · exact Except.noConfusion h
          · split at h
            · exact Except.noConfusion h
            · split at h
              · exact Except.noConfusion h
              · rename_i heq
                rw [dataclassInitCheck_wizard] at heq
                exact Except.noConfusion heq

/-- When the listed-layers prompt is satisfied the layer step succeeds. -/
theorem wizardLayerStep_isOk (env : WizardEnv)
    (h : (wizardLayers env).isEmpty = true ∨
      (1 ≤ env.layer_choice ∧ env.layer_choice ≤ ((wizardLayers env).length : Int))) :
    ∃ v, wizardLayerStep env = Except.ok v := by
  unfold wizardLayerStep
  rcases h with h | ⟨h1, h2⟩
  · rw [h]
    by_cases hg : env.is_gpkg = true <;> simp [hg]
  · by_cases he : (wizardLayers env).isEmpty
    · rw [he]
      by_cases hg : env.is_gpkg = true <;> simp [hg]
    · have hc : ¬(env.layer_choice < 1 ∨ ((wizardLayers env).length : Int) < env.layer_choice) := by
        push_neg
        omega
      simp [he, hc]

/-- When the naming-field prompt is satisfied the field step succeeds. -/
theorem wizardFieldStep_isOk (env : WizardEnv) (pr : PolyReadResult)
    (h : pr.fields.isEmpty = true ∨
      (1 ≤ env.field_choice ∧ env.field_choice ≤ ((pr.fields.length : Int)))) :
    ∃ v, wizardFieldStep env pr = Except.ok v := by
  unfold wizardFieldStep
  rcases h with h | ⟨h1, h2⟩
  · rw [h]
    simp
  · by_cases he : pr.fields.isEmpty
    · rw [he]
      simp
    · have hc : ¬(env.field_choice < 1 ∨ ((pr.fields.length : Int)) < env.field_choice) := by
        push_neg
        omega
      simp [he, hc]

/-- Claim C7: the wizard constructs RunConfig with the keyword argument
target_srs, which is not a RunConfig field; every execution whose prompts and
polygon read all succeed therefore fails with the TypeError, the wizard never
returns a configuration, and run_workflow (hence the run and init
subcommands) never reaches the tile-index build, matching or clipping. -/
theorem c7_wizard_target_srs_typeerror (env : WizardEnv) :
    run_config_fields.contains "target_srs" = false ∧
    wizard_config_kwargs.contains "target_srs" = true ∧
    (wizardPromptsOk env = true → runWizard env = Except.error runConfigTypeErrorMsg) ∧
    (∀ cfg, runWizard env ≠ Except.ok cfg) ∧
    reachesTindexBuild env = false := by
  refine ⟨by decide, by decide, ?_, runWizard_never_ok env, ?_⟩
  · intro hok
    simp only [wizardPromptsOk, Bool.and_eq_true, Bool.or_eq_true, decide_eq_true_eq] at hok
    obtain ⟨⟨⟨h1, h2⟩, h3⟩, h4⟩ := hok
    obtain ⟨v, hv⟩ := wizardLayerStep_isOk env h2
    rcases hread : env.read_result with e | pr
    · rw [hread] at h3
      exact absurd h3 (by simp)
    · rw [hread] at h3
      simp only [Bool.and_eq_true, Bool.or_eq_true, decide_eq_true_eq] at h3
      obtain ⟨h3a, h3b⟩ := h3
      rcases hcrs : pr.crs with _ | c
      · rw [hcrs] at h3a
        exact absurd h3a (by simp)
      · obtain ⟨w, hw⟩ := wizardFieldStep_isOk env pr h3b
        unfold runWizard
        rw [h1]
        simp only [hv, hread, hcrs, hw, h4, dataclassInitCheck_wizard, Bool.not_true,
          Bool.false_eq_true, if_false]
  · unfold reachesTindexBuild
    rcases hw : runWizard env with e | cfg
    · rfl
    · exact absurd hw (runWizard_never_ok env cfg)

/-- Witness for C7 at a concrete environment whose prompts all succeed. -/
theorem c7_wizard_target_srs_typeerror_witness :
    wizardPromptsOk
        ⟨"polys.gpkg", true, true, Except.ok ["areas"], 1, "",
          Except.ok ⟨some "EPSG:32633", ["name"]⟩, 1, "las", true, "ti.gpkg", false,
          "las_tiles", "out", "", true⟩ = true ∧
    runWizard
        ⟨"polys.gpkg", true, true, Except.ok ["areas"], 1, "",
          Except.ok ⟨some "EPSG:32633", ["name"]⟩, 1, "las", true, "ti.gpkg", false,
          "las_tiles", "out", "", true⟩ = Except.error runConfigTypeErrorMsg :=
  ⟨by decide,
    (c7_wizard_target_srs_typeerror
        ⟨"polys.gpkg", true, true, Except.ok ["areas"], 1, "",
          Except.ok ⟨some "EPSG:32633", ["name"]⟩, 1, "las", true, "ti.gpkg", false,
          "las_tiles", "out", "", true⟩).2.2.1 (by decide)⟩

/-! ## clip_cmd lemmas -/

/-- The name poly_crs is bound nowhere in clip_cmd nor at module level, so
its lookup raises NameError. -/
theorem lookupClipCmdName_poly_crs :
    lookupClipCmdName "poly_crs" = Except.error nameErrorMsg := rfl

/-- Claim C8: on every clip invocation in which polygon reading, tile-index
reading and matching succeed, clip_cmd fails with the NameError for the
undefined name poly_crs when evaluating the arguments of the _execute_clips
call; it never executes a clip and never prints a run summary. -/
theorem c8_clip_cmd_nameerror (env : ClipCmdEnv) (name_field suffix : Option String)
    (outdir : String) (poly_gdf : PolygonsGdf) (tindex_gdf : TindexGdf)
    (matched : List PolygonSources)
    (hp : env.read_polygons_result = Except.ok poly_gdf)
    (ht : env.read_tindex_result = Except.ok tindex_gdf)
    (hm : matchPolygonsWithEmptyReports poly_gdf tindex_gdf = Except.ok matched) :
    clip_cmd_local_names.contains "poly_crs" = false ∧
    cli_module_names.contains "poly_crs" = false ∧
    clipCmd env name_field suffix outdir = (Except.error nameErrorMsg, []) := by
  refine ⟨by decide, by decide, ?_⟩
  unfold clipCmd
  simp only [hp, ht, hm, lookupClipCmdName_poly_crs]

/-- Witness for C8 at a concrete environment: one polygon intersecting one
tile, all reads and matching succeeding. -/
theorem c8_clip_cmd_nameerror_witness :
    ((⟨Except.ok ⟨some "EPSG:32633", [⟨0, [(0, 0)], []⟩]⟩,
        Except.ok ⟨some "EPSG:32633", ["filepath"], [⟨[(0, 0)], "t.las"⟩]⟩⟩ :
        ClipCmdEnv).read_polygons_result =
      Except.ok ⟨some "EPSG:32633", [⟨0, [(0, 0)], []⟩]⟩) ∧
    matchPolygonsWithEmptyReports ⟨some "EPSG:32633", [⟨0, [(0, 0)], []⟩]⟩
        ⟨some "EPSG:32633", ["filepath"], [⟨[(0, 0)], "t.las"⟩]⟩ =
      Except.ok [⟨0, ["t.las"]⟩] ∧
    clipCmd
        ⟨Except.ok ⟨some "EPSG:32633", [⟨0, [(0, 0)], []⟩]⟩,
          Except.ok ⟨some "EPSG:32633", ["filepath"], [⟨[(0, 0)], "t.las"⟩]⟩⟩
        (some "name") none "out" = (Except.error nameErrorMsg, []) :=
  ⟨rfl, rfl,
    (c8_clip_cmd_nameerror
        ⟨Except.ok ⟨some "EPSG:32633", [⟨0, [(0, 0)], []⟩]⟩,
          Except.ok ⟨some "EPSG:32633", ["filepath"], [⟨[(0, 0)], "t.las"⟩]⟩⟩
        (some "name") none "out"
        ⟨some "EPSG:32633", [⟨0, [(0, 0)], []⟩]⟩
        ⟨some "EPSG:32633", ["filepath"], [⟨[(0, 0)], "t.las"⟩]⟩
        [⟨0, ["t.las"]⟩] rfl rfl rfl).2.2⟩

/-! ## Name resolver -/

/-- Claim C9: both build_name_getter variants use the value of the
configured field in string form as the base name when the field is set (truthy) and
present in the attributes; a falsy field falls back to the fixed literal
"polygon", and a set-but-absent field falls back to the fixed literal
"unnamed" (the sanitized empty default).  The getters are pure Lean
functions of the attributes and configuration, so determinism is intrinsic. -/
theorem c9_name_resolution :
    (∀ (sfx : Option String) (attrs : List (String × PyValue)) (f : String) (v : PyValue),
      f ≠ "" → attrs.lookup f = some v →
      nameGetterU ⟨some f, sfx⟩ attrs = applySuffixU (sanitizeUtils (pyStr v)) sfx ∧
      nameGetterN (some f) sfx attrs = applySuffixN (sanitizeNaming (pyStr v)) sfx) ∧
    (∀ (sfx : Option String) (attrs : List (String × PyValue)),
      nameGetterU ⟨none, sfx⟩ attrs = applySuffixU "polygon" sfx ∧
      nameGetterN none sfx attrs = applySuffixN "polygon" sfx) ∧
    (∀ (sfx : Option String) (attrs : List (String × PyValue)) (f : String),
      f ≠ "" → attrs.lookup f = none →
      nameGetterU ⟨some f, sfx⟩ attrs = applySuffixU "unnamed" sfx ∧
      nameGetterN (some f) sfx attrs = applySuffixN "unnamed" sfx) := by
  refine ⟨?_, ?_, ?_⟩
  · intro sfx attrs f v hf hv
    have ht : truthy (some f) = true := by
      simp [truthy, hf]
    constructor
    · unfold nameGetterU
      simp only [ht, if_pos, dictGet, hv, Option.getD_some]
    · unfold nameGetterN
      simp only [ht, if_pos, dictGet, hv, Option.getD_some]
  · intro sfx attrs
    constructor
    · unfold nameGetterU
      simp [truthy]
      rfl
    · unfold nameGetterN
      simp [truthy]
      rfl
  · intro sfx attrs f hf hv
    have ht : truthy (some f) = true := by
      simp [truthy, hf]
    constructor
    · unfold nameGetterU
      simp only [ht, if_pos, dictGet, hv, Option.getD_some]
      rfl
    · unfold nameGetterN
      simp only [ht, if_pos, dictGet, hv, Option.getD_some]
      rfl

/-- Witness for C9 at concrete inputs: a present field is used in string
form, an absent field falls back to unnamed, a unset field to polygon. -/
theorem c9_name_resolution_witness :
    (("name" : String) ≠ "" ∧
      ([("name", PyValue.str "Lot 7")] : List (String × PyValue)).lookup "name" =
        some (PyValue.str "Lot 7")) ∧
    nameGetterU ⟨some "name", some "clip"⟩ [("name", PyValue.str "Lot 7")] =
      applySuffixU (sanitizeUtils (pyStr (PyValue.str "Lot 7"))) (some "clip") ∧
    nameGetterU ⟨none, none⟩ [("name", PyValue.str "x")] = applySuffixU "polygon" none ∧
    nameGetterU ⟨some "zone", none⟩ [("name", PyValue.str "x")] =
      applySuffixU "unnamed" none :=
  ⟨⟨by decide, by decide⟩,
    (c9_name_resolution.1 (some "clip") [("name", PyValue.str "Lot 7")] "name"
      (PyValue.str "Lot 7") (by decide) (by decide)).1,
    (c9_name_resolution.2.1 none [("name", PyValue.str "x")]).1,
    (c9_name_resolution.2.2 none [("name", PyValue.str "x")] "zone" (by decide)
      (by decide)).1⟩

/-! ## Sanitization lemmas -/

/-- Stripping underscores from both ends is idempotent. -/
theorem stripUnderscores_idem (l : List Char) :
    stripUnderscores (stripUnderscores l) = stripUnderscores l := by
  unfold stripUnderscores
  have hkey : (List.rdropWhile (fun c => c == '_') (l.dropWhile (fun c => c == '_'))).dropWhile
      (fun c => c == '_') =
      List.rdropWhile (fun c => c == '_') (l.dropWhile (fun c => c == '_')) := by
    rw [List.dropWhile_eq_self_iff]
    intro hl
    have hpre : List.rdropWhile (fun c => c == '_') (l.dropWhile (fun c => c == '_')) <+:
        l.dropWhile (fun c => c == '_') := List.rdropWhile_prefix _ _
    have hlen : 0 < (l.dropWhile (fun c => c == '_')).length :=
      lt_of_lt_of_le hl hpre.length_le
    rw [List.get_eq_getElem, hpre.getElem hl]
    have hnot := List.dropWhile_get_zero_not (fun c => c == '_') l hlen
    rwa [List.get_eq_getElem] at hnot
  rw [hkey, List.rdropWhile_idempotent]

/-- Stripping keeps only characters of the input. -/
theorem mem_stripUnderscores (l : List Char) (c : Char) (h : c ∈ stripUnderscores l) :
    c ∈ l := by
  unfold stripUnderscores at h
  exact (List.dropWhile_suffix _).subset ((List.rdropWhile_prefix _ _).subset h)

/-- The per-character replacement only produces kept characters. -/
theorem validCharU_replCharU (c : Char) : validCharU (replCharU c) = true := by
  unfold replCharU
  by_cases h : validCharU c = true
  · rw [if_pos h]
    exact h
  · rw [if_neg h]
    decide

theorem map_replCharU_valid (l : List Char) : ∀ c ∈ l.map replCharU, validCharU c = true := by
  intro c hc
  obtain ⟨x, _, rfl⟩ := List.mem_map.mp hc
  exact validCharU_replCharU x

/-- The per-character replacement fixes every list of kept characters. -/
theorem map_replCharU_of_valid (l : List Char) (h : ∀ c ∈ l, validCharU c = true) :
    l.map replCharU = l := by
  induction l with
  | nil => rfl
  | cons a t ih =>
    have ha := h a (List.mem_cons_self a t)
    rw [List.map_cons, ih (fun c hc => h c (List.mem_cons_of_mem a hc))]
    unfold replCharU
    rw [if_pos ha]

/-- Collapsing invalid runs only produces characters of the regex class. -/
theorem collapseAux_valid (l : List Char) :
    ∀ (b : Bool), ∀ c ∈ collapseAux b l, validCharN c = true := by
  induction l with
  | nil =>
    intro b c hc
    simp [collapseAux] at hc
  | cons a t ih =>
    intro b c hc
    unfold collapseAux at hc
    by_cases ha : validCharN a = true
    · rw [if_pos ha] at hc
      rcases List.mem_cons.mp hc with rfl | hc2
      · exact ha
      · exact ih false c hc2
    · rw [if_neg ha] at hc
      by_cases hb : b = true
      · rw [if_pos hb] at hc
        exact ih true c hc
      · rw [if_neg hb] at hc
        rcases List.mem_cons.mp hc with rfl | hc2
        · decide
        · exact ih true c hc2

/-- Collapsing fixes every list of regex-class characters. -/
theorem collapseAux_of_valid (l : List Char) (h : ∀ c ∈ l, validCharN c = true) :
    ∀ b, collapseAux b l = l := by
  induction l with
  | nil =>
    intro b
    rfl
  | cons a t ih =>
    intro b
    have ha := h a (List.mem_cons_self a t)
    unfold collapseAux
    rw [if_pos ha, ih (fun c hc => h c (List.mem_cons_of_mem a hc)) false]

/-- List-level idempotence of the utils sanitizer with its default. -/
theorem sanitizeUtilsL_idem (l : List Char) :
    sanitizeUtilsL (sanitizeUtilsL l "unnamed".data) "unnamed".data =
      sanitizeUtilsL l "unnamed".data := by
  have hinner : sanitizeUtilsL l "unnamed".data =
      if (stripUnderscores (l.map replCharU)).isEmpty then "unnamed".data
      else stripUnderscores (l.map replCharU) := rfl
  by_cases h : (stripUnderscores (l.map replCharU)).isEmpty = true
  · rw [hinner, if_pos h]
    decide
  · rw [hinner, if_neg h]
    have hvalid : ∀ c ∈ stripUnderscores (l.map replCharU), validCharU c = true :=
      fun c hc => map_replCharU_valid l c (mem_stripUnderscores _ c hc)
    have hmap := map_replCharU_of_valid _ hvalid
    have hstrip : stripUnderscores (stripUnderscores (l.map replCharU)) =
        stripUnderscores (l.map replCharU) := stripUnderscores_idem _
    show (if (stripUnderscores ((stripUnderscores (l.map replCharU)).map replCharU)).isEmpty
        then "unnamed".data else _) = _
    rw [hmap, hstrip, if_neg h]

/-- List-level idempotence of the regex sanitizer with its default. -/
theorem sanitizeNamingL_idem (l : List Char) :
    sanitizeNamingL (sanitizeNamingL l "unnamed".data) "unnamed".data =
      sanitizeNamingL l "unnamed".data := by
  have hinner : sanitizeNamingL l "unnamed".data =
      if (stripUnderscores (collapseInvalid l)).isEmpty then "unnamed".data
      else stripUnderscores (collapseInvalid l) := rfl
  by_cases h : (stripUnderscores (collapseInvalid l)).isEmpty = true
  · rw [hinner, if_pos h]
    decide
  · rw [hinner, if_neg h]
    have hvalid : ∀ c ∈ stripUnderscores (collapseInvalid l), validCharN c = true :=
      fun c hc => collapseAux_valid l false c (mem_stripUnderscores _ c hc)
    have hmap : collapseInvalid (stripUnderscores (collapseInvalid l)) =
        stripUnderscores (collapseInvalid l) := collapseAux_of_valid _ hvalid false
    have hstrip : stripUnderscores (stripUnderscores (collapseInvalid l)) =
        stripUnderscores (collapseInvalid l) := stripUnderscores_idem _
    show (if (stripUnderscores (collapseInvalid (stripUnderscores (collapseInvalid l)))).isEmpty
        then "unnamed".data else _) = _
    rw [hmap, hstrip, if_neg h]

/-- Claim C10: name sanitization is idempotent for both variants present in
the source — the regex-based sanitize of core/naming.py and the
per-character sanitize of core/utils.py: sanitizing an already-sanitized
string returns it unchanged. -/
theorem c10_sanitize_idempotent (s : String) :
    sanitizeNaming (sanitizeNaming s) = sanitizeNaming s ∧
    sanitizeUtils (sanitizeUtils s) = sanitizeUtils s :=
  ⟨congrArg String.mk (sanitizeNamingL_idem s.data),
    congrArg String.mk (sanitizeUtilsL_idem s.data)⟩

end LasDice
